import Mathlib

/-!
Verification of the realtime Q&A backend (`app/ws_manager.py`, `app/main.py`,
`app/auth.py`, `app/models.py`, `app/schemas.py`) against its specification.

The Python code is shallowly embedded: connection handles become natural
numbers, the SQLAlchemy store becomes an explicit `Store` value threaded
through each handler, raised `HTTPException`s become error results, and each
suspension point of the cooperative (asyncio) scheduler is modelled where a
claim depends on it.
-/

namespace RealtimeBackend

/-! Section: `app/ws_manager.py` — the connection registry

A `WebSocket` transport handle is opaque to the registry; we model it as a
natural number.  Whether `conn.send_json(message)` succeeds for a given
connection during one `broadcast` call is abstracted as a function
`sendOk : Conn → Bool` (the payload itself does not influence control flow in
the source). -/

abbrev Conn := Nat

structure ConnectionManager where
  active_connections : List Conn
deriving DecidableEq, Repr

/-- Method `connect`: after the handshake (`await websocket.accept()`) the handle is
appended to `self.active_connections`. -/
def ConnectionManager.connect (m : ConnectionManager) (websocket : Conn) : ConnectionManager :=
  { m with active_connections := m.active_connections ++ [websocket] }

/-- Method `disconnect`: `if websocket in self.active_connections:
self.active_connections.remove(websocket)` — removal of the first occurrence,
guarded by membership. -/
def ConnectionManager.disconnect (m : ConnectionManager) (websocket : Conn) : ConnectionManager :=
  if websocket ∈ m.active_connections then
    { m with active_connections := m.active_connections.erase websocket }
  else m

/-- The `for conn in list(self.active_connections)` loop body of `broadcast`:
on a successful send the connection is appended to the `living` accumulator,
on an exception it is silently skipped. -/
def broadcastLoop (sendOk : Conn → Bool) : List Conn → List Conn → List Conn
  | [], living => living
  | conn :: rest, living =>
    if sendOk conn then broadcastLoop sendOk rest (living ++ [conn])
    else broadcastLoop sendOk rest living

/-- Method `broadcast`: iterates a snapshot of the live set, attempts each send,
and finally commits `self.active_connections = living`.  Returns the updated
manager together with the list of connections the event was actually
delivered to (exactly those appended to `living`). -/
def ConnectionManager.broadcast (m : ConnectionManager) (sendOk : Conn → Bool) :
    ConnectionManager × List Conn :=
  let living := broadcastLoop sendOk m.active_connections []
  ({ m with active_connections := living }, living)

/-! Section: Interleaved executions of `broadcast`

`broadcast` suspends at each `await conn.send_json(...)`; under asyncio's
cooperative scheduling, other tasks may run `connect` (append to the shared
`self.active_connections`) or `disconnect` (conditional remove) while a send
is in flight.  The snapshot `list(self.active_connections)` at entry and the
final assignment `self.active_connections = living` happen atomically (no
`await` separates the loop's end from the assignment). -/

/-- A registry operation another task performs while `broadcast` is suspended. -/
inductive MidOp where
  | reg (c : Conn)
  | dereg (c : Conn)
deriving DecidableEq, Repr

/-- Effect of a concurrent operation on the shared `active_connections` list:
`reg` is the append performed by `connect`, `dereg` is `disconnect`. -/
def applyMidOp (active : List Conn) : MidOp → List Conn
  | .reg c => active ++ [c]
  | .dereg c => if c ∈ active then active.erase c else active

def applyMidOps (active : List Conn) (ops : List MidOp) : List Conn :=
  ops.foldl applyMidOp active

/-- One cooperative run of the `broadcast` loop.  `pending` is the rest of the
snapshot, `living` the accumulator, `sched` gives, per send, the operations
other tasks interleave while that send is suspended, and `active` is the
shared `self.active_connections` list.  At the end the commit
`self.active_connections = living` executes; the result is the committed live
set together with the shared list as it stood just before the commit. -/
def broadcastRun (sendOk : Conn → Bool) :
    List Conn → List Conn → List (List MidOp) → List Conn → List Conn × List Conn
  | [], living, _, active => (living, active)
  | conn :: rest, living, sched, active =>
    broadcastRun sendOk rest
      (if sendOk conn then living ++ [conn] else living)
      sched.tail
      (applyMidOps active (sched.headD []))

/-- Running `broadcast` racing with registry operations: the snapshot is taken at call
time, then the loop runs under the schedule `sched`.  First component: the
manager after the commit.  Second component: the shared live list immediately
before the commit overwrote it. -/
def broadcastConcurrent (sendOk : Conn → Bool) (m : ConnectionManager)
    (sched : List (List MidOp)) : ConnectionManager × List Conn :=
  let r := broadcastRun sendOk m.active_connections [] sched m.active_connections
  ({ active_connections := r.1 }, r.2)

/-! Section: `app/models.py` / `app/schemas.py` — data model

`DateTime` timestamps are modelled as natural numbers (the code only ever
compares and orders them). -/

structure User where
  user_id : Nat
  username : String
  email : String
  password_hash : String
  is_admin : Bool
deriving DecidableEq, Repr

structure Question where
  question_id : Nat
  user_id : Option Nat
  message : String
  timestamp : Nat
  status : String
  escalated : Bool
  answered_by : Option Nat
deriving DecidableEq, Repr

/-- The SQLAlchemy-backed store: the `users` and `questions` tables plus the
autoincrement counters that assign primary keys. -/
structure Store where
  users : List User
  questions : List Question
  next_user_id : Nat
  next_question_id : Nat
deriving DecidableEq, Repr

/-- The state right after `Base.metadata.create_all`: empty tables. -/
def Store.empty : Store := ⟨[], [], 1, 1⟩

/-- Query `db.query(Question).filter(Question.question_id == question_id).first()` -/
def Store.findQuestion (db : Store) (question_id : Nat) : Option Question :=
  db.questions.find? (fun q => q.question_id == question_id)

/-- Committing an in-place mutation of one fetched row: the row with the same
primary key is replaced, every other row is untouched. -/
def Store.updateQuestion (db : Store) (q : Question) : Store :=
  { db with questions :=
      db.questions.map (fun r => if r.question_id == q.question_id then q else r) }

/-- A raised `HTTPException`. -/
structure HTTPException where
  status_code : Nat
  detail : String
deriving DecidableEq, Repr

/-- The payloads passed to `manager.broadcast` by the three mutating handlers:
`submit_question` sends the full record under type `new_question`;
`answer_question` and `escalate_question` send type `question_updated` with
`question_id`, `status` and `answered_by` resp. `escalated`. -/
inductive Event where
  | new_question (question : Question)
  | question_updated_answer (question_id : Nat) (status : String) (answered_by : Option Nat)
  | question_updated_escalation (question_id : Nat) (status : String) (escalated : Bool)
deriving DecidableEq, Repr

/-- Outcome of one HTTP handler: the response (or the exception raised), the
store as the handler leaves it, and the events it broadcast, in order. -/
structure OpResult (α : Type) where
  response : Except HTTPException α
  db : Store
  events : List Event
deriving Repr

/-! Section: `app/auth.py` — credential service

`python-jose`'s HMAC-SHA256 signing is external to the repository; it is
modelled symbolically: a signature is the signed material together with the
key, so two signatures agree exactly when payload, expiry and key all agree
(unforgeability is taken as an assumption of the model, collision-freeness
from injectivity of the tuple).  Times are seconds as natural numbers. -/

structure JwtPayload where
  user_id : Nat
  username : String
  is_admin : Bool
deriving DecidableEq, Repr

/-- Symbolic HMAC-SHA256 over the encoded claims. -/
def hmacSign (secret : String) (payload : JwtPayload) (exp : Nat) :
    JwtPayload × Nat × String :=
  (payload, exp, secret)

/-- A JWT: claims, expiry, and the signature produced at encoding time. -/
structure Jwt where
  payload : JwtPayload
  exp : Nat
  sig : JwtPayload × Nat × String
deriving DecidableEq, Repr

/-- Constant `ACCESS_TOKEN_EXPIRE_MINUTES = 60 * 24`, in seconds. -/
def accessTokenExpireSeconds : Nat := 60 * 24 * 60

/-- Function `create_access_token`: `expire = utcnow() + (expires_delta or default)`;
the payload is signed together with the expiry (`to_encode.update({"exp": expire})`,
then `jwt.encode(to_encode, SECRET_KEY, HS256)`). -/
def create_access_token (secret : String) (data : JwtPayload) (now : Nat)
    (expires_delta : Option Nat) : Jwt :=
  let expire := now + expires_delta.getD accessTokenExpireSeconds
  ⟨data, expire, hmacSign secret data expire⟩

/-- Function `decode_token`: `jwt.decode` verifies the signature and the `exp` claim;
any `JWTError` (bad signature, expired) is caught and `None` returned. -/
def decode_token (secret : String) (now : Nat) (token : Jwt) : Option JwtPayload :=
  if token.sig = hmacSign secret token.payload token.exp ∧ now < token.exp then
    some token.payload
  else none

/-- Function `get_password_hash` delegates to passlib's pbkdf2_sha256; modelled
symbolically as an injective tagging of the password. -/
def get_password_hash (password : String) : String :=
  "pbkdf2_sha256$" ++ password

/-! Section: `app/main.py` — HTTP handlers -/

/-- Pydantic rejection of `QuestionCreate(message="")` (`min_length=1`). -/
def minLengthError : HTTPException :=
  ⟨422, "String should have at least 1 character"⟩

def emptyQuestionError : HTTPException :=
  ⟨400, "Question cannot be empty"⟩

def questionNotFoundError : HTTPException :=
  ⟨404, "Question not found"⟩

def forbiddenAnswerError : HTTPException :=
  ⟨403, "Only admins can mark questions as answered"⟩

def alreadyEscalatedError : HTTPException :=
  ⟨400, "Question is already escalated"⟩

def duplicateUserError : HTTPException :=
  ⟨400, "Username or email already registered"⟩

/-- Python `str.strip()` whitespace set (ASCII part). -/
def pyIsSpace (c : Char) : Bool :=
  c == ' ' || c == '\t' || c == '\n' || c == '\x0d' || c == '\x0b' || c == '\x0c'

/-- Python `str.strip()`: drop leading and trailing whitespace. -/
def pyStrip (s : String) : String :=
  String.mk (((s.toList.dropWhile pyIsSpace).reverse.dropWhile pyIsSpace).reverse)

/-- Dependency `get_current_user(token, db)`: `None` without a token, `None` when
`decode_token` fails, otherwise the `users` row whose id matches the
`user_id` claim (`first()`, i.e. `none` when absent). -/
def get_current_user (secret : String) (now : Nat) (token : Option Jwt) (db : Store) :
    Option User :=
  match token with
  | none => none
  | some t =>
    match decode_token secret now t with
    | none => none
    | some data => db.users.find? (fun u => u.user_id == data.user_id)

/-- Handler `POST /questions` (`submit_question`): pydantic validates
`min_length=1`, the handler rejects whitespace-only messages with 400,
otherwise persists `Question(message=q.message.strip())` (defaults
`status="Pending"`, `escalated=False`) and broadcasts one `new_question`
event with the full record. -/
def submit_question (message : String) (now : Nat) (db : Store) : OpResult Question :=
  if message.length < 1 then ⟨.error minLengthError, db, []⟩
  else if pyStrip message = "" then ⟨.error emptyQuestionError, db, []⟩
  else
    let question : Question :=
      { question_id := db.next_question_id
        user_id := none
        message := pyStrip message
        timestamp := now
        status := "Pending"
        escalated := false
        answered_by := none }
    let db' := { db with questions := db.questions ++ [question]
                         next_question_id := db.next_question_id + 1 }
    ⟨.ok question, db', [Event.new_question question]⟩

/-- Relation `if a.escalated = b.escalated then b.timestamp ≤ a.timestamp else
a.escalated`: the pairwise order realised by SQL
`ORDER BY escalated DESC, timestamp DESC`. -/
def questionOrder (a b : Question) : Bool :=
  if a.escalated = b.escalated then decide (b.timestamp ≤ a.timestamp)
  else a.escalated

def qRel (a b : Question) : Prop := questionOrder a b = true

instance : DecidableRel qRel := fun a b =>
  inferInstanceAs (Decidable (questionOrder a b = true))

instance : IsTotal Question qRel := by
  constructor
  intro a b
  unfold qRel questionOrder
  cases ha : a.escalated <;> cases hb : b.escalated <;>
    simp <;> omega

instance : IsTrans Question qRel := by
  constructor
  intro a b c hab hbc
  unfold qRel questionOrder at *
  cases ha : a.escalated <;> cases hb : b.escalated <;> cases hc : c.escalated <;>
    simp_all <;> omega

/-- The rows `GET /questions` selects before ordering: `if status_filter:`
is Python truthiness, so both an absent and an empty-string filter leave the
query unfiltered. -/
def filterByStatus (status_filter : Option String) (questions : List Question) :
    List Question :=
  match status_filter with
  | none => questions
  | some s => if s = "" then questions else questions.filter (fun q => q.status == s)

/-- Handler `GET /questions` (`list_questions`): the filtered rows ordered by
`escalated DESC, timestamp DESC` (the database's sort, modelled as a stable
sort under `qRel`). -/
def list_questions (status_filter : Option String) (db : Store) : List Question :=
  List.insertionSort qRel (filterByStatus status_filter db.questions)

/-- Handler `POST /questions/{id}/answer` (`answer_question`): 404 when the row is
missing, then `if not user or not user.is_admin:` 403, otherwise set
`status="Answered"`, `answered_by=user.user_id`, commit, broadcast one
`question_updated` event.  (The optional webhook POST is fire-and-forget and
touches neither store nor registry.) -/
def answer_question (question_id : Nat) (secret : String) (now : Nat)
    (token : Option Jwt) (db : Store) : OpResult String :=
  match db.findQuestion question_id with
  | none => ⟨.error questionNotFoundError, db, []⟩
  | some question =>
    match get_current_user secret now token db with
    | none => ⟨.error forbiddenAnswerError, db, []⟩
    | some user =>
      if user.is_admin then
        let q' := { question with status := "Answered", answered_by := some user.user_id }
        ⟨.ok "Question marked as answered", db.updateQuestion q',
          [Event.question_updated_answer q'.question_id q'.status q'.answered_by]⟩
      else ⟨.error forbiddenAnswerError, db, []⟩

/-- Handler `POST /questions/{id}/escalate` (`escalate_question`): 404 when missing,
400 when `question.escalated` already holds, otherwise set `escalated=True`,
`status="Escalated"`, commit, broadcast one `question_updated` event. -/
def escalate_question (question_id : Nat) (db : Store) : OpResult String :=
  match db.findQuestion question_id with
  | none => ⟨.error questionNotFoundError, db, []⟩
  | some question =>
    if question.escalated then ⟨.error alreadyEscalatedError, db, []⟩
    else
      let q' := { question with escalated := true, status := "Escalated" }
      ⟨.ok "Question escalated", db.updateQuestion q',
        [Event.question_updated_escalation q'.question_id q'.status q'.escalated]⟩

/-- Handler `POST /register`: duplicate username-or-email check, admin flag from
`admin_code and ADMIN_SECRET and admin_code == ADMIN_SECRET` (Python
truthiness on both), then the new row is committed and a token issued. -/
def registerUser (secret : String) (now : Nat) (username email password : String)
    (admin_code : Option String) (admin_secret : String) (db : Store) : OpResult Jwt :=
  if db.users.any (fun u => u.username == username || u.email == email) then
    ⟨.error duplicateUserError, db, []⟩
  else
    let is_admin_flag :=
      match admin_code with
      | none => false
      | some code => code != "" && admin_secret != "" && code == admin_secret
    let user : User :=
      ⟨db.next_user_id, username, email, get_password_hash password, is_admin_flag⟩
    let db' := { db with users := db.users ++ [user]
                         next_user_id := db.next_user_id + 1 }
    ⟨.ok (create_access_token secret ⟨user.user_id, user.username, user.is_admin⟩ now none),
      db', []⟩

/-! Section: Reachable store states

The store starts empty (startup creates the tables); it is mutated only by
the four handlers above.  Error paths leave the handler's `db` component at
the input store, so including every outcome is sound. -/

/-- The question-record invariant of the data model. -/
def QInv (q : Question) : Prop :=
  (q.escalated = true → q.status = "Escalated" ∨ q.status = "Answered") ∧
  (q.status = "Answered" → q.answered_by.isSome = true)

inductive Reachable : Store → Prop
  | init : Reachable Store.empty
  | registerStep (secret : String) (now : Nat) (username email password : String)
      (admin_code : Option String) (admin_secret : String) (db : Store) :
      Reachable db →
      Reachable (registerUser secret now username email password admin_code admin_secret db).db
  | submitStep (message : String) (now : Nat) (db : Store) :
      Reachable db → Reachable (submit_question message now db).db
  | answerStep (question_id : Nat) (secret : String) (now : Nat)
      (token : Option Jwt) (db : Store) :
      Reachable db → Reachable (answer_question question_id secret now token db).db
  | escalateStep (question_id : Nat) (db : Store) :
      Reachable db → Reachable (escalate_question question_id db).db

/-! Section: concrete sample data (used to instantiate the theorems) -/

def demoEscalated : Question := ⟨1, none, "a", 1, "Escalated", true, none⟩

def demoPending : Question := ⟨2, none, "b", 2, "Pending", false, none⟩

def demoStore : Store := ⟨[], [demoEscalated, demoPending], 1, 3⟩

def demoAdmin : User := ⟨1, "root", "root@x.com", get_password_hash "pw", true⟩

def demoAnswerStore : Store := ⟨[demoAdmin], [demoPending], 2, 3⟩

def demoToken : Jwt := create_access_token "s" ⟨1, "root", true⟩ 0 none

def demoAnswered : Question := ⟨4, none, "d", 4, "Answered", false, some 9⟩

def answeredStore : Store := ⟨[], [demoAnswered], 1, 5⟩

def qA : Question := ⟨1, none, "A", 1, "Pending", false, none⟩

def qB : Question := ⟨2, none, "B", 2, "Escalated", true, none⟩

def qC : Question := ⟨3, none, "C", 3, "Pending", false, none⟩

def demoListStore : Store := ⟨[], [qA, qB, qC], 1, 4⟩

def qPendingOnly : Question := ⟨1, none, "hi", 1, "Pending", false, none⟩

def emptyFilterStore : Store := ⟨[], [qPendingOnly], 1, 2⟩

/-- The store reached by submitting one question and escalating it. -/
def demoReachableStore : Store :=
  (escalate_question 1 (submit_question "hi" 5 Store.empty).db).db

/-! Section: helper lemmas -/

/-- The living accumulator of the broadcast loop collects exactly the
snapshot members whose send succeeded, in order. -/
theorem broadcastLoop_eq_filter (sendOk : Conn → Bool) (l : List Conn) :
    ∀ acc : List Conn, broadcastLoop sendOk l acc = acc ++ l.filter sendOk := by
  induction l with
  | nil => intro acc; simp [broadcastLoop]
  | cons c rest ih =>
    intro acc
    by_cases h : sendOk c
    · simp [broadcastLoop, h, ih, List.filter_cons]
    · simp [broadcastLoop, h, ih, List.filter_cons]

/-- The committed live set of an interleaved broadcast run is computed from
the snapshot and the accumulator alone: the schedule and the shared list are
ignored. -/
theorem broadcastRun_fst (sendOk : Conn → Bool) (pending : List Conn) :
    ∀ (living : List Conn) (sched : List (List MidOp)) (active : List Conn),
      (broadcastRun sendOk pending living sched active).1 =
        broadcastLoop sendOk pending living := by
  induction pending with
  | nil => intros; rfl
  | cons c rest ih =>
    intro living sched active
    by_cases h : sendOk c <;> simp [broadcastRun, broadcastLoop, h, ih]

/-! Section: claim theorems -/

/-- C1: for every event and every live set, `broadcast` attempts delivery to
each registered connection independently — a failure on one connection does
not prevent delivery to the others and raises no error (the model is a total
function) — and afterwards the live set keeps exactly the connections whose
delivery succeeded.  Concretely, with live set `[1, 2, 3]` and the send to
`2` failing, the event is delivered to `1` and `3` and the live set ends as
`[1, 3]`. -/
theorem C1_broadcast_independent_delivery_and_prune :
    (∀ (m : ConnectionManager) (sendOk : Conn → Bool) (c : Conn),
      (c ∈ (m.broadcast sendOk).1.active_connections ↔
        c ∈ m.active_connections ∧ sendOk c = true) ∧
      (c ∈ (m.broadcast sendOk).2 ↔
        c ∈ m.active_connections ∧ sendOk c = true)) ∧
    ((ConnectionManager.mk [1, 2, 3]).broadcast (fun c => !(c == 2))).2 = [1, 3] ∧
    ((ConnectionManager.mk [1, 2, 3]).broadcast
        (fun c => !(c == 2))).1.active_connections = [1, 3] := by
  refine ⟨?_, by decide, by decide⟩
  intro m sendOk c
  have h := broadcastLoop_eq_filter sendOk m.active_connections []
  constructor <;>
    simp [ConnectionManager.broadcast, h, List.mem_filter]

/-- C2: the code does not make "attempt all sends, then commit the live set"
atomic with respect to concurrent `register`/`deregister`.  The committed
live set is always the snapshot filtered by send success, independently of
every concurrent registry operation (first conjunct); in the concrete run
with live set `[1, 2, 3]`, all sends succeeding and connection `4`
registering while the second send is suspended, the shared list holds
`[1, 2, 3, 4]` just before the commit, yet the commit overwrites it with
`[1, 2, 3]`: the freshly registered connection is silently dropped and does
not receive subsequent events. -/
theorem C2_commit_discards_concurrent_registration :
    (∀ (m : ConnectionManager) (sendOk : Conn → Bool) (sched : List (List MidOp)),
      (broadcastConcurrent sendOk m sched).1 = (m.broadcast sendOk).1) ∧
    (broadcastConcurrent (fun _ => true) (ConnectionManager.mk [1, 2, 3])
        [[], [MidOp.reg 4]]).2 = [1, 2, 3, 4] ∧
    (broadcastConcurrent (fun _ => true) (ConnectionManager.mk [1, 2, 3])
        [[], [MidOp.reg 4]]).1.active_connections = [1, 2, 3] ∧
    ((broadcastConcurrent (fun _ => true) (ConnectionManager.mk [1, 2, 3])
        [[], [MidOp.reg 4]]).1.active_connections.contains 4) = false ∧
    ((broadcastConcurrent (fun _ => true) (ConnectionManager.mk [1, 2, 3])
        [[], [MidOp.reg 4]]).1.broadcast (fun _ => true)).2 = [1, 2, 3] := by
  refine ⟨?_, by decide, by decide, by decide, by decide⟩
  intro m sendOk sched
  simp [broadcastConcurrent, ConnectionManager.broadcast, broadcastRun_fst]

/-- C9: `disconnect` removes a present handle from the live set, is a no-op
(raising nothing) on an absent handle, and — the live set holding each handle
at most once — composing it with itself equals a single call. -/
theorem C9_disconnect_idempotent :
    (∀ (m : ConnectionManager) (c : Conn),
      c ∉ m.active_connections → m.disconnect c = m) ∧
    (∀ (m : ConnectionManager) (c : Conn),
      c ∈ m.active_connections →
        (m.disconnect c).active_connections = m.active_connections.erase c) ∧
    (∀ (m : ConnectionManager) (c : Conn), m.active_connections.Nodup →
      (m.disconnect c).disconnect c = m.disconnect c) := by
  have habs : ∀ (m : ConnectionManager) (c : Conn),
      c ∉ m.active_connections → m.disconnect c = m := by
    intro m c hc
    simp [ConnectionManager.disconnect, hc]
  refine ⟨habs, ?_, ?_⟩
  · intro m c hc
    simp [ConnectionManager.disconnect, hc]
  · intro m c hnd
    by_cases hc : c ∈ m.active_connections
    · have h1 : (m.disconnect c).active_connections = m.active_connections.erase c := by
        simp [ConnectionManager.disconnect, hc]
      exact habs (m.disconnect c) c (h1 ▸ hnd.not_mem_erase)
    · rw [habs m c hc]
      exact habs m c hc

/-- Witness for C9 at concrete inputs: disconnecting the absent handle `7`
leaves `[5]` unchanged; disconnecting `7` from `[5, 7]` erases it; a second
disconnect after the first is a no-op. -/
theorem C9_disconnect_idempotent_witness :
    ((ConnectionManager.mk [5]).disconnect 7 = ConnectionManager.mk [5]) ∧
    ((ConnectionManager.mk [5, 7]).disconnect 7).active_connections =
      (([5, 7] : List Conn).erase 7) ∧
    (((ConnectionManager.mk [5, 7]).disconnect 7).disconnect 7 =
      (ConnectionManager.mk [5, 7]).disconnect 7) :=
  ⟨C9_disconnect_idempotent.1 (ConnectionManager.mk [5]) 7 (by decide),
   C9_disconnect_idempotent.2.1 (ConnectionManager.mk [5, 7]) 7 (by decide),
   C9_disconnect_idempotent.2.2 (ConnectionManager.mk [5, 7]) 7 (by decide)⟩

/-- C3: `submit_question` fails with a validation error (pydantic's
`min_length=1` rejection or the handler's 400) exactly when the message is
empty or whitespace-only after trimming; on a valid message it persists a new
question with status `Pending`, `escalated = false`, broadcasts exactly one
`new_question` event with that record, and returns the created question. -/
theorem C3_submit_question_validation_and_success (message : String) (now : Nat) (db : Store) :
    ((∃ e, (submit_question message now db).response = Except.error e ∧
        (e = minLengthError ∨ e = emptyQuestionError)) ↔ pyStrip message = "") ∧
    (pyStrip message ≠ "" →
      ∃ q, (submit_question message now db).response = Except.ok q ∧
        q.status = "Pending" ∧ q.escalated = false ∧
        q.question_id = db.next_question_id ∧
        (submit_question message now db).db.questions = db.questions ++ [q] ∧
        (submit_question message now db).events = [Event.new_question q]) := by
  have hempty : message.length < 1 → pyStrip message = "" := by
    intro h
    have hm : message = "" := by
      cases message with
      | mk data =>
        have : data = [] := List.eq_nil_of_length_eq_zero (Nat.lt_one_iff.mp h)
        simp [this]
    rw [hm]
    rfl
  constructor
  · constructor
    · rintro ⟨e, he, -⟩
      unfold submit_question at he
      split at he
      · exact hempty (by assumption)
      · split at he
        · assumption
        · simp at he
    · intro hstrip
      by_cases hlen : message.length < 1
      · exact ⟨minLengthError, by simp [submit_question, hlen], Or.inl rfl⟩
      · exact ⟨emptyQuestionError, by simp [submit_question, hlen, hstrip], Or.inr rfl⟩
  · intro hstrip
    have hlen : ¬ message.length < 1 := fun h => hstrip (hempty h)
    unfold submit_question
    rw [if_neg hlen, if_neg hstrip]
    exact ⟨_, rfl, rfl, rfl, rfl, rfl, rfl⟩

/-- Witness for C3: the message with surrounding whitespace is accepted, the
created question is pending, not escalated, gets the next id, is appended to
the store, and exactly one `new_question` event is broadcast. -/
theorem C3_submit_question_witness :
    pyStrip "  hi  " ≠ "" ∧
    (∃ q, (submit_question "  hi  " 3 Store.empty).response = Except.ok q ∧
      q.status = "Pending" ∧ q.escalated = false ∧
      q.question_id = Store.empty.next_question_id ∧
      (submit_question "  hi  " 3 Store.empty).db.questions = Store.empty.questions ++ [q] ∧
      (submit_question "  hi  " 3 Store.empty).events = [Event.new_question q]) :=
  ⟨by decide,
   (C3_submit_question_validation_and_success "  hi  " 3 Store.empty).2 (by decide)⟩

/-- C4: `escalate_question` fails with 404 when the question is missing,
fails with the conflict error on an already-escalated question — leaving the
store unchanged and broadcasting nothing — and on a non-escalated question
sets `escalated = true` and status `Escalated`, persists, and broadcasts one
`question_updated` event. -/
theorem C4_escalate_question_conflict (question_id : Nat) (db : Store) :
    (db.findQuestion question_id = none →
      escalate_question question_id db = ⟨.error questionNotFoundError, db, []⟩) ∧
    (∀ q, db.findQuestion question_id = some q → q.escalated = true →
      escalate_question question_id db = ⟨.error alreadyEscalatedError, db, []⟩) ∧
    (∀ q, db.findQuestion question_id = some q → q.escalated = false →
      escalate_question question_id db =
        ⟨.ok "Question escalated",
         db.updateQuestion { q with escalated := true, status := "Escalated" },
         [Event.question_updated_escalation q.question_id "Escalated" true]⟩) := by
  refine ⟨?_, ?_, ?_⟩
  · intro h
    unfold escalate_question
    rw [h]
  · intro q hq hesc
    unfold escalate_question
    rw [hq]
    simp [hesc]
  · intro q hq hesc
    unfold escalate_question
    rw [hq]
    simp [hesc]

/-- Witness for C4 on a two-question store: id 3 is absent (404), id 1 is
already escalated (conflict, store unchanged, no event), id 2 escalates. -/
theorem C4_escalate_question_witness :
    escalate_question 3 demoStore = ⟨.error questionNotFoundError, demoStore, []⟩ ∧
    escalate_question 1 demoStore = ⟨.error alreadyEscalatedError, demoStore, []⟩ ∧
    escalate_question 2 demoStore =
      ⟨.ok "Question escalated",
       demoStore.updateQuestion { demoPending with escalated := true, status := "Escalated" },
       [Event.question_updated_escalation demoPending.question_id "Escalated" true]⟩ :=
  ⟨(C4_escalate_question_conflict 3 demoStore).1 (by decide),
   (C4_escalate_question_conflict 1 demoStore).2.1 demoEscalated (by decide) (by decide),
   (C4_escalate_question_conflict 2 demoStore).2.2 demoPending (by decide) (by decide)⟩

/-- C5: on an existing question, `answer_question` fails with 403 — leaving
the store untouched and broadcasting nothing — whenever the acting user is
absent (no token, or a token that fails to resolve) or not an admin; for an
admin it sets status `Answered` and `answered_by` to the acting user's id,
persists, and broadcasts one `question_updated` event. -/
theorem C5_answer_question_forbidden (question_id : Nat) (secret : String)
    (now : Nat) (token : Option Jwt) (db : Store) (q : Question)
    (hq : db.findQuestion question_id = some q) :
    ((get_current_user secret now token db = none ∨
        (∃ u, get_current_user secret now token db = some u ∧ u.is_admin = false)) →
      answer_question question_id secret now token db =
        ⟨.error forbiddenAnswerError, db, []⟩) ∧
    (∀ u, get_current_user secret now token db = some u → u.is_admin = true →
      answer_question question_id secret now token db =
        ⟨.ok "Question marked as answered",
         db.updateQuestion { q with status := "Answered", answered_by := some u.user_id },
         [Event.question_updated_answer q.question_id "Answered" (some u.user_id)]⟩) := by
  constructor
  · rintro (hu | ⟨u, hu, hadmin⟩)
    · unfold answer_question
      rw [hq, hu]
    · unfold answer_question
      rw [hq, hu]
      simp [hadmin]
  · intro u hu hadmin
    unfold answer_question
    rw [hq, hu]
    simp [hadmin]

/-- Witness for C5: with no token the call is forbidden and changes nothing;
with the admin's valid token the question is marked answered by user 1. -/
theorem C5_answer_question_witness :
    answer_question 2 "s" 5 none demoAnswerStore =
      ⟨.error forbiddenAnswerError, demoAnswerStore, []⟩ ∧
    answer_question 2 "s" 5 (some demoToken) demoAnswerStore =
      ⟨.ok "Question marked as answered",
       demoAnswerStore.updateQuestion
         { demoPending with status := "Answered", answered_by := some 1 },
       [Event.question_updated_answer 2 "Answered" (some 1)]⟩ :=
  ⟨(C5_answer_question_forbidden 2 "s" 5 none demoAnswerStore demoPending
      (by decide)).1 (Or.inl (by decide)),
   (C5_answer_question_forbidden 2 "s" 5 (some demoToken) demoAnswerStore demoPending
      (by decide)).2 demoAdmin (by decide) (by decide)⟩

/-- C6 (amended): `list_questions` returns a permutation of the selected
rows — all questions, restricted to those whose status equals the filter when
a non-empty filter is given, an empty-string filter being treated as absent —
ordered primarily by `escalated` descending and secondarily by timestamp
descending; for A(t=1, esc=false), B(t=2, esc=true), C(t=3, esc=false) the
order is [B, C, A]. -/
theorem C6_list_questions_ordering (status_filter : Option String) (db : Store) :
    List.Perm (list_questions status_filter db) (filterByStatus status_filter db.questions) ∧
    List.Sorted qRel (list_questions status_filter db) ∧
    list_questions none demoListStore = [qB, qC, qA] :=
  ⟨List.perm_insertionSort qRel (filterByStatus status_filter db.questions),
   List.sorted_insertionSort qRel (filterByStatus status_filter db.questions),
   by decide⟩

/-- Counterexample to C6 as stated: with the status filter given as the empty
string, the code returns the pending question unfiltered, although its status
does not equal the filter (so the result is not restricted to questions whose
status equals the given filter). -/
theorem C6_empty_filter_counterexample :
    list_questions (some "") emptyFilterStore = [qPendingOnly] ∧
    (qPendingOnly.status == "") = false ∧
    emptyFilterStore.questions.filter (fun q => q.status == "") = [] := by
  decide

/-- Updating one row preserves the record invariant when the replacement row
satisfies it. -/
theorem QInv_updateQuestion (db : Store) (q : Question)
    (hdb : ∀ r ∈ db.questions, QInv r) (hq : QInv q) :
    ∀ r ∈ (db.updateQuestion q).questions, QInv r := by
  intro r hr
  simp only [Store.updateQuestion, List.mem_map] at hr
  obtain ⟨s, hs, rfl⟩ := hr
  split
  · exact hq
  · exact hdb s hs

/-- Registration never touches the questions table. -/
theorem registerUser_questions (secret : String) (now : Nat)
    (username email password : String) (admin_code : Option String)
    (admin_secret : String) (db : Store) :
    (registerUser secret now username email password admin_code admin_secret db).db.questions
      = db.questions := by
  unfold registerUser
  split <;> rfl

/-- Submission preserves the record invariant: the created question is
pending and not escalated. -/
theorem submit_question_preserves_QInv (message : String) (now : Nat) (db : Store)
    (hdb : ∀ r ∈ db.questions, QInv r) :
    ∀ r ∈ (submit_question message now db).db.questions, QInv r := by
  intro r hr
  by_cases h1 : message.length < 1
  · simp only [submit_question, if_pos h1] at hr
    exact hdb r hr
  · by_cases h2 : pyStrip message = ""
    · simp only [submit_question, if_neg h1, if_pos h2] at hr
      exact hdb r hr
    · simp only [submit_question, if_neg h1, if_neg h2] at hr
      rcases List.mem_append.mp hr with hmem | hmem
      · exact hdb r hmem
      · rw [List.mem_singleton.mp hmem]
        exact ⟨fun h => Bool.noConfusion h,
               fun h => absurd (show "Pending" = "Answered" from h) (by decide)⟩

/-- Answering preserves the record invariant: the updated row is `Answered`
with `answered_by` set. -/
theorem answer_question_preserves_QInv (question_id : Nat) (secret : String) (now : Nat)
    (token : Option Jwt) (db : Store) (hdb : ∀ r ∈ db.questions, QInv r) :
    ∀ r ∈ (answer_question question_id secret now token db).db.questions, QInv r := by
  intro r hr
  unfold answer_question at hr
  cases hfind : db.findQuestion question_id with
  | none =>
    rw [hfind] at hr
    exact hdb r hr
  | some question =>
    rw [hfind] at hr
    cases huser : get_current_user secret now token db with
    | none =>
      rw [huser] at hr
      exact hdb r hr
    | some user =>
      rw [huser] at hr
      by_cases hadmin : user.is_admin
      · simp only [hadmin, if_true] at hr
        exact QInv_updateQuestion db
          { question with status := "Answered", answered_by := some user.user_id } hdb
          ⟨fun _ => Or.inr rfl, fun _ => rfl⟩ r hr
      · simp only [hadmin] at hr
        exact hdb r hr

/-- Escalation preserves the record invariant: the updated row is
`Escalated` with the flag set. -/
theorem escalate_question_preserves_QInv (question_id : Nat) (db : Store)
    (hdb : ∀ r ∈ db.questions, QInv r) :
    ∀ r ∈ (escalate_question question_id db).db.questions, QInv r := by
  intro r hr
  unfold escalate_question at hr
  cases hfind : db.findQuestion question_id with
  | none =>
    rw [hfind] at hr
    exact hdb r hr
  | some question =>
    rw [hfind] at hr
    by_cases hesc : question.escalated
    · simp only [hesc, if_true] at hr
      exact hdb r hr
    · simp only [hesc] at hr
      exact QInv_updateQuestion db
        { question with escalated := true, status := "Escalated" } hdb
        ⟨fun _ => Or.inl rfl,
         fun h => absurd (show "Escalated" = "Answered" from h) (by decide)⟩ r hr

/-- C7: every store reachable from startup through the handlers satisfies the
data-model invariant on every question: `escalated = true` implies the status
is `Escalated` (or `Answered` once answered), and status `Answered` implies
`answered_by` is set. -/
theorem C7_reachable_invariant (db : Store) (h : Reachable db) :
    ∀ q ∈ db.questions, QInv q := by
  induction h with
  | init =>
    intro q hq
    simp [Store.empty] at hq
  | registerStep secret now username email password admin_code admin_secret db _ ih =>
    rw [registerUser_questions]
    exact ih
  | submitStep message now db _ ih =>
    exact submit_question_preserves_QInv message now db ih
  | answerStep question_id secret now token db _ ih =>
    exact answer_question_preserves_QInv question_id secret now token db ih
  | escalateStep question_id db _ ih =>
    exact escalate_question_preserves_QInv question_id db ih

/-- Witness for C7: the store reached by submitting a question and escalating
it is reachable, and its single (escalated) question satisfies the
invariant. -/
theorem C7_reachable_invariant_witness :
    QInv ⟨1, none, "hi", 5, "Escalated", true, none⟩ :=
  C7_reachable_invariant demoReachableStore
    (Reachable.escalateStep 1 (submit_question "hi" 5 Store.empty).db
      (Reachable.submitStep "hi" 5 Store.empty Reachable.init))
    ⟨1, none, "hi", 5, "Escalated", true, none⟩ (by decide)

/-- C8: a token issued by `create_access_token` and decoded before expiry
yields back the embedded claims; an expired token and a token whose payload
was tampered with (signature left intact) both uniformly decode to `none`
rather than raising; concretely, claims `user_id = 7`, `is_admin = true`
round-trip. -/
theorem C8_token_roundtrip (secret : String) (data : JwtPayload)
    (issue_now verify_now : Nat) (expires_delta : Option Nat) :
    (verify_now < (create_access_token secret data issue_now expires_delta).exp →
      decode_token secret verify_now (create_access_token secret data issue_now expires_delta)
        = some data) ∧
    ((create_access_token secret data issue_now expires_delta).exp ≤ verify_now →
      decode_token secret verify_now (create_access_token secret data issue_now expires_delta)
        = none) ∧
    (∀ data' : JwtPayload, data' ≠ data →
      decode_token secret verify_now
        { create_access_token secret data issue_now expires_delta with payload := data' }
        = none) ∧
    decode_token "change-me-in-prod" 100
      (create_access_token "change-me-in-prod" ⟨7, "alice", true⟩ 100 none)
      = some ⟨7, "alice", true⟩ := by
  refine ⟨?_, ?_, ?_, by decide⟩
  · intro h
    unfold decode_token
    rw [if_pos ⟨rfl, h⟩]
    exact rfl
  · intro h
    unfold decode_token
    rw [if_neg]
    rintro ⟨-, hlt⟩
    omega
  · intro data' hne
    unfold decode_token
    rw [if_neg]
    rintro ⟨hsig, -⟩
    simp only [create_access_token, hmacSign, Prod.mk.injEq, true_and] at hsig
    exact hne hsig.1.symm

/-- Witness for C8: a token with expiry 10 decodes to its claims at time 5,
decodes to `none` at time 10, and a payload-tampered copy decodes to `none`
at time 5. -/
theorem C8_token_roundtrip_witness :
    decode_token "s" 5 (create_access_token "s" ⟨7, "alice", true⟩ 0 (some 10))
      = some ⟨7, "alice", true⟩ ∧
    decode_token "s" 10 (create_access_token "s" ⟨7, "alice", true⟩ 0 (some 10)) = none ∧
    decode_token "s" 5
      { create_access_token "s" ⟨7, "alice", true⟩ 0 (some 10) with
          payload := ⟨9, "eve", false⟩ }
      = none :=
  ⟨(C8_token_roundtrip "s" ⟨7, "alice", true⟩ 0 5 (some 10)).1 (by decide),
   (C8_token_roundtrip "s" ⟨7, "alice", true⟩ 0 10 (some 10)).2.1 (by decide),
   (C8_token_roundtrip "s" ⟨7, "alice", true⟩ 0 5 (some 10)).2.2.1
     ⟨9, "eve", false⟩ (by decide)⟩

/-- C10: the only state precondition of `escalate_question` is the
`escalated` flag: any existing question with `escalated = false` — its status
may already be `Answered` — is escalated, its status overwritten with
`Escalated` while `answered_by` is kept, and one `question_updated` event is
broadcast; the answered state is not terminal. -/
theorem C10_escalate_ignores_answered_status (question_id : Nat) (db : Store)
    (q : Question) (hq : db.findQuestion question_id = some q)
    (hesc : q.escalated = false) :
    escalate_question question_id db =
      ⟨.ok "Question escalated",
       db.updateQuestion { q with escalated := true, status := "Escalated" },
       [Event.question_updated_escalation q.question_id "Escalated" true]⟩ ∧
    ({ q with escalated := true, status := "Escalated" } : Question).answered_by
      = q.answered_by ∧
    ({ q with escalated := true, status := "Escalated" } : Question).status
      = "Escalated" := by
  refine ⟨?_, rfl, rfl⟩
  unfold escalate_question
  rw [hq]
  simp [hesc]

/-- Witness for C10: a question already answered (by user 9) and not yet
escalated is escalated successfully; `answered_by` survives the overwrite of
its status. -/
theorem C10_escalate_ignores_answered_status_witness :
    escalate_question 4 answeredStore =
      ⟨.ok "Question escalated",
       answeredStore.updateQuestion { demoAnswered with escalated := true, status := "Escalated" },
       [Event.question_updated_escalation 4 "Escalated" true]⟩ ∧
    ({ demoAnswered with escalated := true, status := "Escalated" } : Question).answered_by
      = some 9 ∧
    ({ demoAnswered with escalated := true, status := "Escalated" } : Question).status
      = "Escalated" :=
  C10_escalate_ignores_answered_status 4 answeredStore demoAnswered (by decide) (by decide)

end RealtimeBackend
